import Mathlib

/-!
Verification of the Python.PubSub.Server core against its specification.

The Python sources are shallowly embedded:
* `batch_writer.py` (`BatchWriteBuffer`, `BatchMetrics`) as a state machine
  over per-operation-type buffers, with the executor outcome (success or
  raised exception) supplied as an oracle boolean;
* `async_sqlite_batch.py` (`AsyncSQLiteBatch.execute_write_batch`) as a pure
  script builder over character lists;
* `pubsub_ws.py` (both the legacy top-level module and the
  `python_pubsub_server` package variant) as pure functions over row lists.

Floating-point fields that no claim touches (`avg_batch_size`,
`last_flush_time`) and wall-clock timestamps are not modelled; timestamps
that matter to ordering are modelled as integers.
-/

namespace PubSubServer

/-! ## batch_writer.py : OperationType and BatchMetrics -/

/-- `OperationType` enum from `batch_writer.py`. -/
inductive OperationType where
  | MESSAGE
  | CONSUMPTION
  | SUBSCRIPTION
  | DELETION
deriving DecidableEq, Repr

/-- The four operation types, in the iteration order of `for op_type in OperationType`. -/
def OperationType.all : List OperationType :=
  [.MESSAGE, .CONSUMPTION, .SUBSCRIPTION, .DELETION]

/-- Integer counters of `BatchMetrics` (`batch_writer.py`).  The derived float
`avg_batch_size` and the wall-clock `last_flush_time` are not modelled. -/
structure BatchMetrics where
  total_flushes : Nat
  total_writes : Nat
  total_batched_items : Nat
  flush_by_size : Nat
  flush_by_time : Nat
  flush_by_shutdown : Nat
  max_batch_size : Nat
  min_batch_size : Nat
deriving DecidableEq, Repr

/-- Zero-initialised metrics (the dataclass defaults). -/
def initMetrics : BatchMetrics := ⟨0, 0, 0, 0, 0, 0, 0, 0⟩

/-- `BatchMetrics.record_flush` from `batch_writer.py`. -/
def BatchMetrics.record_flush (m : BatchMetrics) (batch_size : Nat) (reason : String) :
    BatchMetrics :=
  let m := { m with
    total_flushes := m.total_flushes + 1
    total_batched_items := m.total_batched_items + batch_size }
  let m :=
    if reason = "size" then { m with flush_by_size := m.flush_by_size + 1 }
    else if reason = "time" then { m with flush_by_time := m.flush_by_time + 1 }
    else if reason = "shutdown" then { m with flush_by_shutdown := m.flush_by_shutdown + 1 }
    else m
  let m :=
    if m.max_batch_size = 0 ∨ m.max_batch_size < batch_size then
      { m with max_batch_size := batch_size }
    else m
  if m.min_batch_size = 0 ∨ batch_size < m.min_batch_size then
    { m with min_batch_size := batch_size }
  else m

/-! ## batch_writer.py : BatchWriteBuffer as a state machine

The Python buffer stores raw parameter tuples; the tuple type is abstracted
as `α`.  The field `persisted` is a ghost variable recording, per operation
type and in order, every item the executor successfully applied; the oracle
boolean `ok` passed to a flush tells whether `self.executor(sql, operations)`
returns normally (`true`) or raises (`false`). -/

/-- Configuration knobs of `BatchWriteBuffer.__init__` that the claims use. -/
structure BufferConfig where
  batch_size : Nat
  max_buffer_size : Nat
deriving DecidableEq, Repr

/-- State of a `BatchWriteBuffer`: the per-type buffers (`self.buffers`), the
metrics (`self.metrics`), the `self.running` flag, and the ghost record of
executed batches. -/
structure BufferState (α : Type) where
  buffers : OperationType → List α
  metrics : BatchMetrics
  running : Bool
  persisted : OperationType → List α

/-- Pointwise update of a per-type map. -/
def setBuf {α : Type} (f : OperationType → List α) (t : OperationType) (v : List α) :
    OperationType → List α :=
  fun u => if u = t then v else f u

/-- Initial state: empty buffers, zero metrics, flush thread not running. -/
def initState (α : Type) : BufferState α :=
  ⟨fun _ => [], initMetrics, false, fun _ => []⟩

/-- `BatchWriteBuffer._flush_buffer` from `batch_writer.py`: return early when
the buffer is empty; otherwise take all operations out and clear the buffer,
then call the executor.  On success (`ok = true`) the batch is persisted and
`record_flush` runs; on an executor exception (`ok = false`) the failure is
only logged — the cleared items are neither re-queued nor counted. -/
def flushBuffer {α : Type} (ok : Bool) (t : OperationType) (reason : String)
    (s : BufferState α) : BufferState α :=
  if (s.buffers t).length = 0 then s
  else if ok then
    { s with
      buffers := setBuf s.buffers t []
      persisted := setBuf s.persisted t (s.persisted t ++ s.buffers t)
      metrics := s.metrics.record_flush (s.buffers t).length reason }
  else { s with buffers := setBuf s.buffers t [] }

/-- The middle of `_add_operation`: `buffer.append(params)` followed by
`self.metrics.total_writes += 1` under the metrics lock. -/
def appendStep {α : Type} (t : OperationType) (p : α) (s : BufferState α) : BufferState α :=
  { s with
    buffers := setBuf s.buffers t (s.buffers t ++ [p])
    metrics := { s.metrics with total_writes := s.metrics.total_writes + 1 } }

/-- `BatchWriteBuffer._add_operation` from `batch_writer.py`: under the type's
lock, force a "size" flush when the buffer is already at `max_buffer_size`,
append the item, bump `total_writes`, then flush with reason "size" when the
buffer has reached `batch_size`.  `ok1`/`ok2` are the executor outcomes of the
two potential flushes. -/
def addOperation {α : Type} (cfg : BufferConfig) (ok1 ok2 : Bool) (t : OperationType)
    (p : α) (s : BufferState α) : BufferState α :=
  let s :=
    if cfg.max_buffer_size ≤ (s.buffers t).length then flushBuffer ok1 t "size" s else s
  let s := appendStep t p s
  if cfg.batch_size ≤ (s.buffers t).length then flushBuffer ok2 t "size" s else s

/-- One observable operation on a `BatchWriteBuffer`.  `timeFlush` is one
firing of the background `_flush_loop` body for one type (the elapsed-time
condition decides whether the op occurs at all); `manualFlush` is
`force_flush_all`; `startOp`/`stopOp` are `start`/`stop`.  Flush outcomes are
oracle booleans as in `flushBuffer`. -/
inductive BufOp (α : Type) where
  | add (ok1 ok2 : Bool) (t : OperationType) (p : α)
  | timeFlush (ok : Bool) (t : OperationType)
  | manualFlush (ok : OperationType → Bool)
  | startOp
  | stopOp (ok : OperationType → Bool)

/-- Step function: the effect of one operation on the buffer state,
following `batch_writer.py` (`_add_operation`, `_flush_loop`,
`force_flush_all`, `start`, `stop`). -/
def stepOp {α : Type} (cfg : BufferConfig) (op : BufOp α) (s : BufferState α) :
    BufferState α :=
  match op with
  | .add ok1 ok2 t p => addOperation cfg ok1 ok2 t p s
  | .timeFlush ok t => if s.running then flushBuffer ok t "time" s else s
  | .manualFlush ok =>
      OperationType.all.foldl (fun s t => flushBuffer (ok t) t "manual" s) s
  | .startOp => if s.running then s else { s with running := true }
  | .stopOp ok =>
      if s.running then
        let s : BufferState α := { s with running := false }
        OperationType.all.foldl (fun s t => flushBuffer (ok t) t "shutdown" s) s
      else s

/-- Run a sequence of operations from a state. -/
def runOps {α : Type} (cfg : BufferConfig) (ops : List (BufOp α)) (s : BufferState α) :
    BufferState α :=
  ops.foldl (fun s op => stepOp cfg op s) s

/-! ### Basic lemmas about `flushBuffer` and `addOperation` -/

theorem flushBuffer_running {α : Type} (ok : Bool) (t : OperationType) (r : String)
    (s : BufferState α) : (flushBuffer ok t r s).running = s.running := by
  unfold flushBuffer
  split
  · rfl
  · split <;> rfl

theorem flushBuffer_buffers_self {α : Type} (ok : Bool) (t : OperationType) (r : String)
    (s : BufferState α) : (flushBuffer ok t r s).buffers t = [] := by
  unfold flushBuffer
  split
  · exact List.length_eq_zero.mp ‹_›
  · split <;> simp [setBuf]

theorem flushBuffer_frame {α : Type} (ok : Bool) (u t : OperationType) (hne : t ≠ u)
    (r : String) (s : BufferState α) :
    (flushBuffer ok u r s).buffers t = s.buffers t ∧
      (flushBuffer ok u r s).persisted t = s.persisted t := by
  unfold flushBuffer
  split
  · exact ⟨rfl, rfl⟩
  · split <;> simp [setBuf, hne]

theorem flushBuffer_true_conc {α : Type} (u t : OperationType) (r : String)
    (s : BufferState α) :
    (flushBuffer true u r s).persisted t ++ (flushBuffer true u r s).buffers t
      = s.persisted t ++ s.buffers t := by
  unfold flushBuffer
  split
  · rfl
  · by_cases ht : t = u
    · subst ht
      simp [setBuf]
    · simp [setBuf, ht]

theorem flushBuffer_length_le {α : Type} (ok : Bool) (t : OperationType) (r : String)
    (s : BufferState α) (u : OperationType) :
    ((flushBuffer ok t r s).buffers u).length ≤ (s.buffers u).length := by
  by_cases hu : u = t
  · subst hu
    rw [flushBuffer_buffers_self]
    exact Nat.zero_le _
  · rw [(flushBuffer_frame ok t u hu r s).1]

theorem flushBuffer_keeps_empty {α : Type} (ok : Bool) (u t : OperationType) (r : String)
    (s : BufferState α) (h : s.buffers t = []) : (flushBuffer ok u r s).buffers t = [] := by
  by_cases ht : t = u
  · subst ht
    exact flushBuffer_buffers_self ok t r s
  · rw [(flushBuffer_frame ok u t ht r s).1]
    exact h

theorem ite_flush_true_conc {α : Type} (c : Prop) [Decidable c] (t : OperationType)
    (r : String) (s : BufferState α) :
    (if c then flushBuffer true t r s else s).persisted t
        ++ (if c then flushBuffer true t r s else s).buffers t
      = s.persisted t ++ s.buffers t := by
  split
  · exact flushBuffer_true_conc t t r s
  · rfl

theorem ite_flush_running {α : Type} (c : Prop) [Decidable c] (ok : Bool)
    (t : OperationType) (r : String) (s : BufferState α) :
    (if c then flushBuffer ok t r s else s).running = s.running := by
  split
  · exact flushBuffer_running ok t r s
  · rfl

theorem appendStep_conc {α : Type} (t : OperationType) (p : α) (s : BufferState α) :
    (appendStep t p s).persisted t ++ (appendStep t p s).buffers t
      = (s.persisted t ++ s.buffers t) ++ [p] := by
  simp [appendStep, setBuf]

theorem addOperation_true_conc {α : Type} (cfg : BufferConfig) (t : OperationType) (p : α)
    (s : BufferState α) :
    (addOperation cfg true true t p s).persisted t
        ++ (addOperation cfg true true t p s).buffers t
      = (s.persisted t ++ s.buffers t) ++ [p] := by
  unfold addOperation
  rw [ite_flush_true_conc, appendStep_conc, ite_flush_true_conc]

theorem addOperation_running {α : Type} (cfg : BufferConfig) (ok1 ok2 : Bool)
    (t : OperationType) (p : α) (s : BufferState α) :
    (addOperation cfg ok1 ok2 t p s).running = s.running := by
  unfold addOperation
  rw [ite_flush_running]
  show (appendStep t p _).running = _
  show (if _ then flushBuffer ok1 t "size" s else s).running = _
  rw [ite_flush_running]

theorem foldFlush_true_conc {α : Type} (l : List OperationType) (r : String)
    (t : OperationType) (s : BufferState α) :
    (l.foldl (fun s u => flushBuffer true u r s) s).persisted t
        ++ (l.foldl (fun s u => flushBuffer true u r s) s).buffers t
      = s.persisted t ++ s.buffers t := by
  induction l generalizing s with
  | nil => rfl
  | cons u l ih =>
    rw [List.foldl_cons]
    exact (ih (flushBuffer true u r s)).trans (flushBuffer_true_conc u t r s)

theorem foldFlush_keeps_empty {α : Type} (l : List OperationType) (f : OperationType → Bool)
    (r : String) (t : OperationType) (s : BufferState α) (h : s.buffers t = []) :
    (l.foldl (fun s u => flushBuffer (f u) u r s) s).buffers t = [] := by
  induction l generalizing s with
  | nil => exact h
  | cons u l ih =>
    rw [List.foldl_cons]
    exact ih _ (flushBuffer_keeps_empty (f u) u t r s h)

theorem foldFlush_mem_empty {α : Type} (l : List OperationType) (f : OperationType → Bool)
    (r : String) (t : OperationType) (s : BufferState α) (ht : t ∈ l) :
    (l.foldl (fun s u => flushBuffer (f u) u r s) s).buffers t = [] := by
  induction l generalizing s with
  | nil => cases ht
  | cons u l ih =>
    rw [List.foldl_cons]
    rcases List.mem_cons.mp ht with h | h
    · subst h
      exact foldFlush_keeps_empty l f r t _ (flushBuffer_buffers_self (f t) t r s)
    · exact ih _ h

theorem runOps_append {α : Type} (cfg : BufferConfig) (l1 l2 : List (BufOp α))
    (s : BufferState α) :
    runOps cfg (l1 ++ l2) s = runOps cfg l2 (runOps cfg l1 s) := by
  unfold runOps
  exact List.foldl_append _ _ _ _

theorem runAdds_conc {α : Type} (cfg : BufferConfig) (t : OperationType) (ps : List α)
    (s : BufferState α) :
    (runOps cfg (ps.map (BufOp.add true true t)) s).persisted t
        ++ (runOps cfg (ps.map (BufOp.add true true t)) s).buffers t
      = (s.persisted t ++ s.buffers t) ++ ps := by
  induction ps generalizing s with
  | nil => simp [runOps]
  | cons p ps ih =>
    rw [List.map_cons]
    show (runOps cfg (ps.map (BufOp.add true true t)) (addOperation cfg true true t p s)).persisted t
        ++ (runOps cfg (ps.map (BufOp.add true true t)) (addOperation cfg true true t p s)).buffers t
      = _
    rw [ih, addOperation_true_conc]
    simp

theorem runAdds_running {α : Type} (cfg : BufferConfig) (t : OperationType) (ps : List α)
    (s : BufferState α) :
    (runOps cfg (ps.map (BufOp.add true true t)) s).running = s.running := by
  induction ps generalizing s with
  | nil => rfl
  | cons p ps ih =>
    rw [List.map_cons]
    show (runOps cfg (ps.map (BufOp.add true true t)) (addOperation cfg true true t p s)).running = _
    rw [ih, addOperation_running]

/-- C1: for any sequence of N `add()` calls of one operation type (every
executor call succeeding) followed by `stop()`, every buffered item has been
handed to the executor: the ghost `persisted` log for that type is exactly the
list of added items (so its row count is N) and the buffer is left empty —
`stop()` performs a final "shutdown" flush per type, so a clean shutdown loses
nothing. -/
theorem clean_shutdown_loses_no_items {α : Type} (cfg : BufferConfig) (t : OperationType)
    (ps : List α) :
    (runOps cfg
        (BufOp.startOp :: (ps.map (BufOp.add true true t) ++ [BufOp.stopOp (fun _ => true)]))
        (initState α)).persisted t = ps
    ∧ (runOps cfg
        (BufOp.startOp :: (ps.map (BufOp.add true true t) ++ [BufOp.stopOp (fun _ => true)]))
        (initState α)).buffers t = []
    ∧ ((runOps cfg
        (BufOp.startOp :: (ps.map (BufOp.add true true t) ++ [BufOp.stopOp (fun _ => true)]))
        (initState α)).persisted t).length = ps.length := by
  have hstart : runOps cfg
      (BufOp.startOp :: (ps.map (BufOp.add true true t) ++ [BufOp.stopOp (fun _ => true)]))
      (initState α)
      = runOps cfg (ps.map (BufOp.add true true t) ++ [BufOp.stopOp (fun _ => true)])
        { initState α with running := true } := rfl
  rw [hstart, runOps_append]
  set sA := runOps cfg (ps.map (BufOp.add true true t)) { initState α with running := true }
    with hsA
  have hrun : sA.running = true := by
    rw [hsA]
    exact runAdds_running cfg t ps _
  have hconc : sA.persisted t ++ sA.buffers t = ps := by
    rw [hsA, runAdds_conc]
    rfl
  have hstop : runOps cfg [BufOp.stopOp (fun _ => true)] sA
      = OperationType.all.foldl (fun s u => flushBuffer true u "shutdown" s)
          { sA with running := false } := by
    show stepOp cfg (BufOp.stopOp (fun _ => true)) sA = _
    unfold stepOp
    rw [hrun]
    rfl
  rw [hstop]
  have hmem : t ∈ OperationType.all := by
    cases t <;> simp [OperationType.all]
  have hempty : (OperationType.all.foldl (fun s u => flushBuffer true u "shutdown" s)
      { sA with running := false }).buffers t = [] :=
    foldFlush_mem_empty OperationType.all (fun _ => true) "shutdown" t _ hmem
  have hconc2 : (OperationType.all.foldl (fun s u => flushBuffer true u "shutdown" s)
        { sA with running := false }).persisted t
      ++ (OperationType.all.foldl (fun s u => flushBuffer true u "shutdown" s)
        { sA with running := false }).buffers t = ps := by
    rw [foldFlush_true_conc]
    exact hconc
  rw [hempty] at hconc2
  simp only [List.append_nil] at hconc2
  exact ⟨hconc2, hempty, by rw [hconc2]⟩

/-! ### The buffer-size bound (claim C3) -/

theorem ite_flush_length_le {α : Type} (c : Prop) [Decidable c] (ok : Bool)
    (t : OperationType) (r : String) (s : BufferState α) (u : OperationType) :
    ((if c then flushBuffer ok t r s else s).buffers u).length ≤ (s.buffers u).length := by
  split
  · exact flushBuffer_length_le ok t r s u
  · exact Nat.le_refl _

theorem foldFlush_length_le {α : Type} (l : List OperationType) (f : OperationType → Bool)
    (r : String) (s : BufferState α) (u : OperationType) :
    ((l.foldl (fun s t => flushBuffer (f t) t r s) s).buffers u).length
      ≤ (s.buffers u).length := by
  induction l generalizing s with
  | nil => exact Nat.le_refl _
  | cons t l ih =>
    rw [List.foldl_cons]
    exact Nat.le_trans (ih (flushBuffer (f t) t r s)) (flushBuffer_length_le (f t) t r s u)

theorem appendStep_buffers {α : Type} (t : OperationType) (p : α) (s : BufferState α)
    (u : OperationType) :
    (appendStep t p s).buffers u = if u = t then s.buffers t ++ [p] else s.buffers u := rfl

theorem addOperation_bounded {α : Type} (cfg : BufferConfig) (h1 : 1 ≤ cfg.max_buffer_size)
    (ok1 ok2 : Bool) (t : OperationType) (p : α) (s : BufferState α)
    (hs : ∀ u, (s.buffers u).length ≤ cfg.max_buffer_size) (u : OperationType) :
    ((addOperation cfg ok1 ok2 t p s).buffers u).length ≤ cfg.max_buffer_size := by
  simp only [addOperation]
  refine Nat.le_trans (ite_flush_length_le _ ok2 t "size" _ u) ?_
  rw [appendStep_buffers]
  by_cases hu : u = t
  · rw [if_pos hu]
    rw [List.length_append, List.length_singleton]
    by_cases hc : cfg.max_buffer_size ≤ (s.buffers t).length
    · rw [if_pos hc, flushBuffer_buffers_self]
      simpa using h1
    · rw [if_neg hc]
      omega
  · rw [if_neg hu]
    exact Nat.le_trans (ite_flush_length_le _ ok1 t "size" s u) (hs u)

theorem stepOp_bounded {α : Type} (cfg : BufferConfig) (h1 : 1 ≤ cfg.max_buffer_size)
    (op : BufOp α) (s : BufferState α)
    (hs : ∀ u, (s.buffers u).length ≤ cfg.max_buffer_size) (u : OperationType) :
    ((stepOp cfg op s).buffers u).length ≤ cfg.max_buffer_size := by
  cases op with
  | add ok1 ok2 t p => exact addOperation_bounded cfg h1 ok1 ok2 t p s hs u
  | timeFlush ok t =>
    simp only [stepOp]
    exact Nat.le_trans (ite_flush_length_le _ ok t "time" s u) (hs u)
  | manualFlush f =>
    simp only [stepOp]
    exact Nat.le_trans (foldFlush_length_le OperationType.all f "manual" s u) (hs u)
  | startOp =>
    simp only [stepOp]
    split
    · exact hs u
    · exact hs u
  | stopOp f =>
    simp only [stepOp]
    split
    · exact Nat.le_trans
        (foldFlush_length_le OperationType.all f "shutdown" { s with running := false } u)
        (hs u)
    · exact hs u

theorem runOps_bounded {α : Type} (cfg : BufferConfig) (h1 : 1 ≤ cfg.max_buffer_size)
    (ops : List (BufOp α)) (s : BufferState α)
    (hs : ∀ u, (s.buffers u).length ≤ cfg.max_buffer_size) (u : OperationType) :
    ((runOps cfg ops s).buffers u).length ≤ cfg.max_buffer_size := by
  induction ops generalizing s with
  | nil => exact hs u
  | cons op ops ih => exact ih (stepOp cfg op s) (fun v => stepOp_bounded cfg h1 op s hs v)

/-- C3: with a positive `max_buffer_size`, under every interleaving of adds
and flushes (any operation types, any executor outcomes) a buffer never holds
more than `max_buffer_size` items — `_add_operation` forces a "size" flush
before admitting the new item whenever the buffer is already at the limit. -/
theorem buffer_never_exceeds_max {α : Type} (cfg : BufferConfig)
    (h1 : 1 ≤ cfg.max_buffer_size) (ops : List (BufOp α)) (t : OperationType) :
    ((runOps cfg ops (initState α)).buffers t).length ≤ cfg.max_buffer_size :=
  runOps_bounded cfg h1 ops (initState α) (fun _ => Nat.zero_le _) t

/-- Witness for C3 at the default configuration (`batch_size = 100`,
`max_buffer_size = 10000`) and a one-add run. -/
theorem buffer_never_exceeds_max_witness :
    1 ≤ (10000 : Nat)
    ∧ ((runOps ⟨100, 10000⟩ [BufOp.add true true OperationType.MESSAGE "m"]
        (initState String)).buffers OperationType.MESSAGE).length ≤ 10000 :=
  ⟨by decide,
    buffer_never_exceeds_max ⟨100, 10000⟩ (by decide)
      [BufOp.add true true OperationType.MESSAGE "m"] OperationType.MESSAGE⟩

/-! ### The metrics invariant (claim C10) -/

theorem record_flush_total_batched_items (m : BatchMetrics) (b : Nat) (r : String) :
    (m.record_flush b r).total_batched_items = m.total_batched_items + b := by
  simp only [BatchMetrics.record_flush]
  repeat' split
  all_goals rfl

theorem record_flush_total_writes (m : BatchMetrics) (b : Nat) (r : String) :
    (m.record_flush b r).total_writes = m.total_writes := by
  simp only [BatchMetrics.record_flush]
  repeat' split
  all_goals rfl

/-- Sum of all four buffer lengths: the items currently held in the buffer. -/
def totalBuffered {α : Type} (s : BufferState α) : Nat :=
  (s.buffers .MESSAGE).length + (s.buffers .CONSUMPTION).length
    + (s.buffers .SUBSCRIPTION).length + (s.buffers .DELETION).length

/-- The invariant of claim C10: flushed items plus still-buffered items never
exceed the total number of writes accepted. -/
def metricsInv {α : Type} (s : BufferState α) : Prop :=
  s.metrics.total_batched_items + totalBuffered s ≤ s.metrics.total_writes

theorem flushBuffer_metricsInv {α : Type} (ok : Bool) (t : OperationType) (r : String)
    (s : BufferState α) (h : metricsInv s) : metricsInv (flushBuffer ok t r s) := by
  unfold flushBuffer
  split
  · exact h
  · split
    · unfold metricsInv totalBuffered at h ⊢
      cases t <;>
        simp [setBuf, record_flush_total_batched_items, record_flush_total_writes] <;>
        omega
    · unfold metricsInv totalBuffered at h ⊢
      cases t <;> simp [setBuf] <;> omega

theorem appendStep_metricsInv {α : Type} (t : OperationType) (p : α) (s : BufferState α)
    (h : metricsInv s) : metricsInv (appendStep t p s) := by
  unfold metricsInv totalBuffered at h ⊢
  cases t <;> simp [appendStep, setBuf] <;> omega

theorem ite_flush_metricsInv {α : Type} (c : Prop) [Decidable c] (ok : Bool)
    (t : OperationType) (r : String) (s : BufferState α) (h : metricsInv s) :
    metricsInv (if c then flushBuffer ok t r s else s) := by
  split
  · exact flushBuffer_metricsInv ok t r s h
  · exact h

theorem addOperation_metricsInv {α : Type} (cfg : BufferConfig) (ok1 ok2 : Bool)
    (t : OperationType) (p : α) (s : BufferState α) (h : metricsInv s) :
    metricsInv (addOperation cfg ok1 ok2 t p s) := by
  simp only [addOperation]
  exact ite_flush_metricsInv _ ok2 t "size" _
    (appendStep_metricsInv t p _ (ite_flush_metricsInv _ ok1 t "size" s h))

theorem foldFlush_metricsInv {α : Type} (l : List OperationType) (f : OperationType → Bool)
    (r : String) (s : BufferState α) (h : metricsInv s) :
    metricsInv (l.foldl (fun s u => flushBuffer (f u) u r s) s) := by
  induction l generalizing s with
  | nil => exact h
  | cons u l ih =>
    rw [List.foldl_cons]
    exact ih _ (flushBuffer_metricsInv (f u) u r s h)

theorem stepOp_metricsInv {α : Type} (cfg : BufferConfig) (op : BufOp α)
    (s : BufferState α) (h : metricsInv s) : metricsInv (stepOp cfg op s) := by
  cases op with
  | add ok1 ok2 t p => exact addOperation_metricsInv cfg ok1 ok2 t p s h
  | timeFlush ok t =>
    simp only [stepOp]
    exact ite_flush_metricsInv _ ok t "time" s h
  | manualFlush f =>
    simp only [stepOp]
    exact foldFlush_metricsInv OperationType.all f "manual" s h
  | startOp =>
    simp only [stepOp]
    split
    · exact h
    · exact h
  | stopOp f =>
    simp only [stepOp]
    split
    · exact foldFlush_metricsInv OperationType.all f "shutdown" { s with running := false } h
    · exact h

theorem runOps_metricsInv {α : Type} (cfg : BufferConfig) (ops : List (BufOp α))
    (s : BufferState α) (h : metricsInv s) : metricsInv (runOps cfg ops s) := by
  induction ops generalizing s with
  | nil => exact h
  | cons op ops ih => exact ih (stepOp cfg op s) (stepOp_metricsInv cfg op s h)

/-- C10: every reachable state of the buffer (any adds, size/time/manual or
shutdown flushes, any executor outcomes) satisfies
`total_batched_items + items-still-buffered ≤ total_writes`; in particular
`total_batched_items ≤ total_writes`. -/
theorem batched_items_bounded_by_total_writes {α : Type} (cfg : BufferConfig)
    (ops : List (BufOp α)) :
    (runOps cfg ops (initState α)).metrics.total_batched_items
        + totalBuffered (runOps cfg ops (initState α))
      ≤ (runOps cfg ops (initState α)).metrics.total_writes
    ∧ (runOps cfg ops (initState α)).metrics.total_batched_items
      ≤ (runOps cfg ops (initState α)).metrics.total_writes := by
  have h := runOps_metricsInv cfg ops (initState α) (Nat.le_refl 0)
  exact ⟨h, Nat.le_trans (Nat.le_add_right _ _) h⟩

/-! ### Executor failure during a flush (claim C6) -/

/-- A buffer state with one pending MESSAGE item and fresh metrics. -/
def sampleState : BufferState String :=
  { buffers := setBuf (fun _ => []) OperationType.MESSAGE ["m1"]
    metrics := initMetrics
    running := true
    persisted := fun _ => [] }

/-- C6 counterexample: with one buffered MESSAGE item and an executor call
that raises, `_flush_buffer` drops the batch but does NOT update the metrics —
`record_flush` sits after the executor call inside the `try`, so on failure
every metrics field keeps its prior value (`total_flushes` stays 0).  This
refutes the claim that a failed flush "updates its metrics". -/
theorem flush_failure_metrics_unchanged_cex :
    (sampleState.buffers OperationType.MESSAGE).length = 1
    ∧ (flushBuffer false OperationType.MESSAGE "time" sampleState).metrics
        = sampleState.metrics
    ∧ (flushBuffer false OperationType.MESSAGE "time" sampleState).metrics.total_flushes = 0
    ∧ (flushBuffer false OperationType.MESSAGE "time" sampleState).buffers
        OperationType.MESSAGE = [] := by
  decide

/-- C6 amended: when the executor raises during a flush, the aggregator logs
and drops the batch without retrying — the items were already removed from the
buffer (cleared before the executor call), they are not re-queued, nothing is
persisted — but the metrics are left unchanged (they are only updated on a
successful flush). -/
theorem flush_failure_drops_batch {α : Type} (t : OperationType) (r : String)
    (s : BufferState α) :
    (flushBuffer false t r s).metrics = s.metrics
    ∧ (flushBuffer false t r s).persisted = s.persisted
    ∧ (flushBuffer false t r s).buffers t = []
    ∧ ∀ u, u ≠ t → (flushBuffer false t r s).buffers u = s.buffers u := by
  refine ⟨?_, ?_, flushBuffer_buffers_self false t r s, ?_⟩
  · unfold flushBuffer
    split
    · rfl
    · rfl
  · unfold flushBuffer
    split
    · rfl
    · rfl
  · exact fun u hu => (flushBuffer_frame false t u hu r s).1

/-! ## Lock discipline of the flush paths (claim C5)

The lock/I-O ordering of `batch_writer.py` is embedded as event traces.  Each
caller of `_flush_buffer` emits the sequence of observable events its code
performs: taking/releasing the per-type `buffer_locks[op_type]`, appending an
item, the swap-and-clear of the buffer, and the call into
`self.executor(sql, operations)` (the serializer's `enqueue_batch`). -/

/-- One observable event on a flush path. -/
inductive LockTraceEvent where
  | acquire
  | release
  | appendItem
  | swapClear
  | executorCall
deriving DecidableEq, Repr

/-- Events emitted by `_flush_buffer` on a buffer of length `len`: it returns
immediately when the buffer is empty, otherwise it copies the operations out,
clears the buffer, and then calls the executor.  `_flush_buffer` itself never
touches the lock ("must be called with the buffer lock already acquired"). -/
def flushBufferTrace (len : Nat) : List LockTraceEvent :=
  if len = 0 then [] else [.swapClear, .executorCall]

/-- Events of `_add_operation` on a buffer holding `len` items: everything —
the possible max-size flush, the append, and the possible batch-size flush —
happens inside `with self.buffer_locks[op_type]`. -/
def addOperationTrace (len maxBuf batch : Nat) : List LockTraceEvent :=
  [.acquire]
    ++ (if maxBuf ≤ len then flushBufferTrace len else [])
    ++ [.appendItem]
    ++ (if batch ≤ (if maxBuf ≤ len then 0 else len) + 1 then
          flushBufferTrace ((if maxBuf ≤ len then 0 else len) + 1)
        else [])
    ++ [.release]

/-- Events of one `_flush_loop` body iteration for one type: the elapsed-time
check and the flush itself sit inside `with self.buffer_locks[op_type]`. -/
def flushLoopIterTrace (len : Nat) (elapsed : Bool) : List LockTraceEvent :=
  [.acquire] ++ (if 0 < len ∧ elapsed = true then flushBufferTrace len else []) ++ [.release]

/-- Events of `force_flush_all` for one type: `_flush_buffer` is called inside
`with self.buffer_locks[op_type]`. -/
def forceFlushTrace (len : Nat) : List LockTraceEvent :=
  [.acquire] ++ flushBufferTrace len ++ [.release]

/-- Events of the final per-type flush in `stop`: it calls `_flush_buffer`
without taking the lock. -/
def stopFlushTrace (len : Nat) : List LockTraceEvent :=
  flushBufferTrace len

/-- Whether some executor call in the trace happens while the lock is held
(`depth` counts currently-held acquisitions). -/
def execUnderLock (depth : Nat) : List LockTraceEvent → Bool
  | [] => false
  | e :: es =>
    match e with
    | .acquire => execUnderLock (depth + 1) es
    | .release => execUnderLock (depth - 1) es
    | .executorCall => if depth = 0 then execUnderLock depth es else true
    | _ => execUnderLock depth es

/-- C5 counterexample: `_add_operation` on a buffer of 99 items with
`max_buffer_size = 10000` and `batch_size = 100` triggers the batch-size flush
and the executor is invoked at lock depth 1 — the per-type lock is NOT
released before `enqueue_batch` runs, refuting the claim. -/
theorem executor_called_under_lock_cex :
    execUnderLock 0 (addOperationTrace 99 10000 100) = true := by decide

/-- C5 amended: `_flush_buffer` does swap out and clear the buffer before
invoking the executor, but on the size-triggered (in `add`), time-triggered
(flush loop) and manual (`force_flush_all`) paths it is called with the
per-type lock held and the executor therefore runs under the lock; only the
final shutdown flush in `stop()` invokes the executor without the lock. -/
theorem flush_lock_held_on_non_shutdown_paths (len maxBuf batch : Nat)
    (hlen : 0 < len) (hb : batch ≤ len + 1) (hm : len < maxBuf) :
    execUnderLock 0 (addOperationTrace len maxBuf batch) = true
    ∧ execUnderLock 0 (flushLoopIterTrace len true) = true
    ∧ execUnderLock 0 (forceFlushTrace len) = true
    ∧ execUnderLock 0 (stopFlushTrace len) = false
    ∧ forceFlushTrace len
        = [.acquire, .swapClear, .executorCall, .release] := by
  have hz : ¬ len = 0 := Nat.pos_iff_ne_zero.mp hlen
  have hm' : ¬ maxBuf ≤ len := Nat.not_le.mpr hm
  refine ⟨?_, ?_, ?_, ?_, ?_⟩
  · simp only [addOperationTrace, flushBufferTrace, if_neg hm', if_pos hb]
    simp [execUnderLock]
  · simp only [flushLoopIterTrace, flushBufferTrace, if_neg hz]
    rw [if_pos ⟨hlen, trivial⟩]
    simp [execUnderLock]
  · simp only [forceFlushTrace, flushBufferTrace, if_neg hz]
    simp [execUnderLock]
  · simp only [stopFlushTrace, flushBufferTrace, if_neg hz]
    simp [execUnderLock]
  · simp only [forceFlushTrace, flushBufferTrace, if_neg hz]
    rfl

/-- Witness for the amended C5 at `len = 1`, `max_buffer_size = 10000`,
`batch_size = 2`. -/
theorem flush_lock_held_witness :
    (0 < 1 ∧ 2 ≤ 1 + 1 ∧ 1 < 10000)
    ∧ (execUnderLock 0 (addOperationTrace 1 10000 2) = true
      ∧ execUnderLock 0 (flushLoopIterTrace 1 true) = true
      ∧ execUnderLock 0 (forceFlushTrace 1) = true
      ∧ execUnderLock 0 (stopFlushTrace 1) = false
      ∧ forceFlushTrace 1
          = [.acquire, .swapClear, .executorCall, .release]) :=
  ⟨by decide,
    flush_lock_held_on_non_shutdown_paths 1 10000 2 (by decide) (by decide) (by decide)⟩

/-! ## async_sqlite_batch.py : execute_write_batch (claim C2)

`AsyncSQLiteBatch.execute_write_batch` builds a textual transaction script:
each parameter is formatted (strings quoted with single quotes doubled,
numbers via `str()`, `None` as `NULL`) and then substituted into the SQL with
`formatted_sql.replace("?", formatted_param, 1)`, one parameter at a time. -/

/-- The single-quote character. -/
def singleQuote : Char := Char.ofNat 39

/-- The question-mark placeholder character. -/
def questionMark : Char := Char.ofNat 63

/-- String-value escaping of `execute_write_batch`: double every single
quote (`param.replace("'", "''")`). -/
def escapeQuotes : List Char → List Char
  | [] => []
  | c :: cs =>
    if c = singleQuote then singleQuote :: singleQuote :: escapeQuotes cs
    else c :: escapeQuotes cs

/-- A parameter value of a batched statement: the `str`, `int`/`float` and
`None` branches of the formatter (floats go through `str()` like ints; the
fallback branch stringifies-and-escapes like `str`). -/
inductive SqlParam where
  | str (v : String)
  | int (v : Int)
  | null
deriving DecidableEq, Repr

/-- Per-parameter formatting of `execute_write_batch`. -/
def formatParam : SqlParam → List Char
  | .str v => singleQuote :: (escapeQuotes v.data ++ [singleQuote])
  | .int v => (toString v).data
  | .null => "NULL".data

/-- Python's `s.replace("?", new, 1)`: replace the FIRST `?` found anywhere in
the string — the scan restarts from the beginning of the whole string on every
call, including inside previously substituted parameter text. -/
def replaceFirstQuestionMark (new : List Char) : List Char → List Char
  | [] => []
  | c :: cs =>
    if c = questionMark then new ++ cs
    else c :: replaceFirstQuestionMark new cs

/-- The statement `execute_write_batch` builds for one parameter tuple:
starting from `sql`, fold `replace("?", formatted_param, 1)` over the
formatted parameters in order. -/
def formatStatement (sql : List Char) (params : List SqlParam) : List Char :=
  (params.map formatParam).foldl (fun acc fp => replaceFirstQuestionMark fp acc) sql

/-- The whole transaction script built by `execute_write_batch`, as its list
of lines: `BEGIN TRANSACTION;`, one formatted statement (suffixed `;`) per
tuple in order, then `COMMIT;`.  `none` models the early return on an empty
`params_list`. -/
def buildBatchScript (sql : String) (paramsList : List (List SqlParam)) :
    Option (List String) :=
  if paramsList = [] then none
  else
    some (("BEGIN TRANSACTION;"
      :: paramsList.map (fun ps => String.mk (formatStatement sql.data ps) ++ ";"))
      ++ ["COMMIT;"])

/-- Modelled from the spec wording of claim C2 (refinement target, compared
against `formatStatement`): each `?` placeholder, scanned left to right, is
replaced by the corresponding formatted parameter, never rescanning the
substituted text. -/
def substPlaceholders : List Char → List (List Char) → List Char
  | [], _ => []
  | c :: cs, vals =>
    if c = questionMark then
      match vals with
      | v :: vs => v ++ substPlaceholders cs vs
      | [] => c :: substPlaceholders cs []
    else c :: substPlaceholders cs vals

/-- The failing SQL statement of claim C2. -/
def sqlC2 : String := "INSERT INTO t (a, b) VALUES (?, ?)"

/-- The failing parameter tuple of claim C2: the first value contains a `?`. -/
def paramsC2 : List SqlParam := [SqlParam.str "a?b", SqlParam.str "x"]

/-- What the code produces on `paramsC2`: `VALUES ('a'x'b', ?)` — the second
substitution landed inside the first value's text. -/
def mangledC2 : List Char :=
  "INSERT INTO t (a, b) VALUES (".data ++ [singleQuote] ++ "a".data ++ [singleQuote]
    ++ "x".data ++ [singleQuote] ++ "b".data ++ [singleQuote] ++ ", ?)".data

/-- What the claim requires on `paramsC2`: `VALUES ('a?b', 'x')`. -/
def correctC2 : List Char :=
  "INSERT INTO t (a, b) VALUES (".data ++ [singleQuote] ++ "a?b".data ++ [singleQuote]
    ++ ", ".data ++ [singleQuote] ++ "x".data ++ [singleQuote] ++ ")".data

/-- C2 (code bug), evaluated at the failing input: for the parameter tuple
`("a?b", "x")`, `str.replace("?", value, 1)` rescans from the start of the
statement, so the second parameter is substituted into the middle of the
first value instead of the second placeholder.  The script wrapper itself is
`BEGIN TRANSACTION;` / statements / `COMMIT;` as claimed, but the statement is
not the claimed placeholder-by-placeholder substitution. -/
theorem batch_script_question_mark_bug :
    formatStatement sqlC2.data paramsC2 = mangledC2
    ∧ substPlaceholders sqlC2.data (paramsC2.map formatParam) = correctC2
    ∧ formatStatement sqlC2.data paramsC2
        ≠ substPlaceholders sqlC2.data (paramsC2.map formatParam)
    ∧ buildBatchScript sqlC2 [paramsC2]
        = some ["BEGIN TRANSACTION;", String.mk (mangledC2 ++ ";".data), "COMMIT;"] := by
  decide

/-! ## pubsub_ws.py : Broker.cleanup_old_rows (claim C7)

A capped table is a list of rows carrying their SQLite `rowid` and the value
of the table's time column (`connected_at` or `timestamp`). -/

/-- One row of a capped table. -/
structure TableRow where
  rowid : Nat
  timeCol : Int
deriving DecidableEq, Repr

/-- `ORDER BY {order_column} DESC`. -/
def sortByTimeDesc (tbl : List TableRow) : List TableRow :=
  List.insertionSort (fun a b => b.timeCol ≤ a.timeCol) tbl

/-- `Broker.cleanup_old_rows` from `python_pubsub_server/pubsub_ws.py`:
return untouched when `self.max_rows <= 0`; otherwise issue
`DELETE FROM {table} WHERE rowid IN (SELECT rowid FROM {table} ORDER BY
{order_column} DESC LIMIT -1 OFFSET max_rows)` — delete every row whose rowid
lies beyond the first `max_rows` rows of the time-descending ordering. -/
def cleanup_old_rows (max_rows : Int) (tbl : List TableRow) : List TableRow :=
  if max_rows ≤ 0 then tbl
  else
    tbl.filter (fun r =>
      decide (¬ r.rowid ∈ ((sortByTimeDesc tbl).drop max_rows.toNat).map TableRow.rowid))

/-- C7: with distinct rowids, a completed cleanup with `max_rows > 0` leaves
at most `max_rows` rows and every surviving row is among the `max_rows`
most-recent rows of the time-descending ordering; with `max_rows ≤ 0` no
delete is issued and the table is untouched. -/
theorem cleanup_caps_table (max_rows : Int) (tbl : List TableRow)
    (hnd : (tbl.map TableRow.rowid).Nodup) :
    (max_rows ≤ 0 → cleanup_old_rows max_rows tbl = tbl)
    ∧ (0 < max_rows →
        (cleanup_old_rows max_rows tbl).length ≤ max_rows.toNat
        ∧ ∀ r ∈ cleanup_old_rows max_rows tbl,
            r ∈ (sortByTimeDesc tbl).take max_rows.toNat) := by
  constructor
  · intro h
    simp [cleanup_old_rows, h]
  · intro h
    have hneg : ¬ max_rows ≤ 0 := not_le.mpr h
    have hperm : (sortByTimeDesc tbl).Perm tbl := by
      unfold sortByTimeDesc
      exact List.perm_insertionSort _ tbl
    have hsub : ∀ r ∈ cleanup_old_rows max_rows tbl,
        r ∈ (sortByTimeDesc tbl).take max_rows.toNat := by
      intro r hr
      rw [cleanup_old_rows, if_neg hneg] at hr
      rw [List.mem_filter] at hr
      obtain ⟨hrt, hnotd⟩ := hr
      rw [decide_eq_true_iff] at hnotd
      have hrS : r ∈ (sortByTimeDesc tbl).take max_rows.toNat
          ++ (sortByTimeDesc tbl).drop max_rows.toNat := by
        rw [List.take_append_drop]
        exact hperm.mem_iff.mpr hrt
      rcases List.mem_append.mp hrS with h1 | h1
      · exact h1
      · exact absurd (List.mem_map_of_mem TableRow.rowid h1) hnotd
    refine ⟨?_, hsub⟩
    have hndt : tbl.Nodup := List.Nodup.of_map TableRow.rowid hnd
    have hkept : (cleanup_old_rows max_rows tbl).Nodup := by
      rw [cleanup_old_rows, if_neg hneg]
      exact hndt.filter _
    have hlen := (List.subperm_of_subset hkept (fun r hr => hsub r hr)).length_le
    refine le_trans hlen ?_
    rw [List.length_take]
    exact min_le_left _ _

/-- Witness for C7: a three-row table capped at 2. -/
theorem cleanup_caps_table_witness :
    (([⟨1, 10⟩, ⟨2, 5⟩, ⟨3, 7⟩] : List TableRow).map TableRow.rowid).Nodup
    ∧ ((2 ≤ (0 : Int) → cleanup_old_rows 2 [⟨1, 10⟩, ⟨2, 5⟩, ⟨3, 7⟩]
          = [⟨1, 10⟩, ⟨2, 5⟩, ⟨3, 7⟩])
      ∧ ((0 : Int) < 2 →
          (cleanup_old_rows 2 [⟨1, 10⟩, ⟨2, 5⟩, ⟨3, 7⟩]).length ≤ (2 : Int).toNat
          ∧ ∀ r ∈ cleanup_old_rows 2 [⟨1, 10⟩, ⟨2, 5⟩, ⟨3, 7⟩],
              r ∈ (sortByTimeDesc [⟨1, 10⟩, ⟨2, 5⟩, ⟨3, 7⟩]).take (2 : Int).toNat)) :=
  ⟨by decide, cleanup_caps_table 2 [⟨1, 10⟩, ⟨2, 5⟩, ⟨3, 7⟩] (by decide)⟩

/-! ## Subscriptions keyed by (sid, topic) (claim C4) -/

/-- One row of the `subscriptions` table. -/
structure SubscriptionRow where
  sid : String
  consumer : String
  topic : String
  connected_at : Int
deriving DecidableEq, Repr

/-- Modelled from the spec: the production subscriptions schema is created by
`migrations/001_add_message_id_and_producer.sql`, which is absent from the
sources; per the spec invariant ("A Subscription row is uniquely keyed by
(sid, topic)") and the schema `tests/test_batch_writer.py` creates
(`PRIMARY KEY (sid, topic)`), `INSERT OR REPLACE` deletes the row with the
same (sid, topic) key, if any, and inserts the new row. -/
def upsertSubscription (tbl : List SubscriptionRow) (r : SubscriptionRow) :
    List SubscriptionRow :=
  (tbl.filter (fun q => decide (¬ (q.sid = r.sid ∧ q.topic = r.topic)))) ++ [r]

/-- `Broker.register_subscription` from `python_pubsub_server/pubsub_ws.py`:
return (warn only) when any of the three fields is empty/falsy, otherwise
`INSERT OR REPLACE INTO subscriptions (sid, consumer, topic, connected_at)`. -/
def register_subscription (tbl : List SubscriptionRow) (sid consumer topic : String)
    (now : Int) : List SubscriptionRow :=
  if sid = "" ∨ consumer = "" ∨ topic = "" then tbl
  else upsertSubscription tbl ⟨sid, consumer, topic, now⟩

/-- `Broker.unregister_client`: `DELETE FROM subscriptions WHERE sid = ?`. -/
def unregister_client (tbl : List SubscriptionRow) (sid : String) :
    List SubscriptionRow :=
  tbl.filter (fun q => decide (¬ q.sid = sid))

/-- C4: subscription rows are keyed by (sid, topic): registering one sid on
two distinct topics yields two coexisting rows; re-registering the same
(sid, topic) replaces the existing row (refreshed `connected_at`) instead of
adding one; `unregister_client sid` removes every row of that sid. -/
theorem subscriptions_keyed_by_sid_topic (sid c t1 t2 : String) (n1 n2 n3 : Int)
    (hs : sid ≠ "") (hc : c ≠ "") (h1 : t1 ≠ "") (h2 : t2 ≠ "") (hne : t1 ≠ t2) :
    register_subscription (register_subscription [] sid c t1 n1) sid c t2 n2
      = [⟨sid, c, t1, n1⟩, ⟨sid, c, t2, n2⟩]
    ∧ register_subscription
        (register_subscription (register_subscription [] sid c t1 n1) sid c t2 n2)
        sid c t1 n3
      = [⟨sid, c, t2, n2⟩, ⟨sid, c, t1, n3⟩]
    ∧ unregister_client
        (register_subscription (register_subscription [] sid c t1 n1) sid c t2 n2)
        sid
      = [] := by
  have hcond1 : ¬ (sid = "" ∨ c = "" ∨ t1 = "") := by simp [hs, hc, h1]
  have hcond2 : ¬ (sid = "" ∨ c = "" ∨ t2 = "") := by simp [hs, hc, h2]
  have hne' : t2 ≠ t1 := Ne.symm hne
  refine ⟨?_, ?_, ?_⟩ <;>
    simp [register_subscription, upsertSubscription, unregister_client,
      hcond1, hcond2, hne, hne']

/-- Witness for C4 at concrete identifiers. -/
theorem subscriptions_keyed_witness :
    ("s1" ≠ "" ∧ "alice" ≠ "" ∧ "news" ≠ "" ∧ "sport" ≠ "" ∧ "news" ≠ "sport")
    ∧ (register_subscription (register_subscription [] "s1" "alice" "news" 1)
          "s1" "alice" "sport" 2
        = [⟨"s1", "alice", "news", 1⟩, ⟨"s1", "alice", "sport", 2⟩]
      ∧ register_subscription
          (register_subscription (register_subscription [] "s1" "alice" "news" 1)
            "s1" "alice" "sport" 2)
          "s1" "alice" "news" 3
        = [⟨"s1", "alice", "sport", 2⟩, ⟨"s1", "alice", "news", 3⟩]
      ∧ unregister_client
          (register_subscription (register_subscription [] "s1" "alice" "news" 1)
            "s1" "alice" "sport" 2)
          "s1"
        = []) :=
  ⟨by decide,
    subscriptions_keyed_by_sid_topic "s1" "alice" "news" "sport" 1 2 3
      (by decide) (by decide) (by decide) (by decide) (by decide)⟩

/-! ## Reading stored payloads back (claim C8) -/

/-- One row of the `messages` table; `message` holds the stored payload
text. -/
structure MessageRow where
  topic : String
  message_id : String
  message : String
  producer : String
  timestamp : Int
deriving DecidableEq, Repr

/-- Result of payload handling (`json.loads(r[2]) if r[2] else {}` with
`json.JSONDecodeError` handled): a parsed value, the empty dict `{}` for an
empty payload, or the error record `{"error": ..., "raw": ...}`. -/
inductive PayloadResult (J : Type) where
  | parsed (v : J)
  | emptyObj
  | errorRec (error : String) (raw : String)
deriving DecidableEq, Repr

/-- One record returned by `get_messages`. -/
structure MessageOut (J : Type) where
  topic : String
  message_id : String
  message : PayloadResult J
  producer : String
  timestamp : Int
deriving DecidableEq, Repr

/-- `SELECT topic, message_id, message, producer, timestamp FROM messages
ORDER BY timestamp DESC LIMIT 100`. -/
def messagesQuery (tbl : List MessageRow) : List MessageRow :=
  (List.insertionSort (fun a b => b.timestamp ≤ a.timestamp) tbl).take 100

/-- Payload handling of the current broker's `get_messages`
(`python_pubsub_server/pubsub_ws.py`): `json.loads(r[2]) if r[2] else {}`,
with `json.JSONDecodeError` mapped to `{"error": "Invalid JSON", "raw": r[2]}`.
`jloads` abstracts `json.loads` over an abstract JSON value type `J`; `none`
means the call raises `JSONDecodeError`. -/
def decodePayload {J : Type} (jloads : String → Option J) (raw : String) :
    PayloadResult J :=
  if raw = "" then .emptyObj
  else
    match jloads raw with
    | some v => .parsed v
    | none => .errorRec "Invalid JSON" raw

/-- `Broker.get_messages` of the current broker: one output record per
queried row, each with its payload decoded per `decodePayload`. -/
def get_messages {J : Type} (jloads : String → Option J) (tbl : List MessageRow) :
    List (MessageOut J) :=
  (messagesQuery tbl).map
    (fun r => ⟨r.topic, r.message_id, decodePayload jloads r.message, r.producer, r.timestamp⟩)

/-- `Broker.get_messages` of the legacy top-level `pubsub_ws.py`: the list
comprehension calls `json.loads` unguarded inside a `try`, and the
`json.JSONDecodeError` handler returns `[]` — one corrupt row empties the
whole listing. -/
def get_messages_legacy {J : Type} (jloads : String → Option J)
    (tbl : List MessageRow) : List (MessageOut J) :=
  if (messagesQuery tbl).any
      (fun r => decide (¬ r.message = "") && (jloads r.message).isNone) then []
  else
    (messagesQuery tbl).map
      (fun r => ⟨r.topic, r.message_id, decodePayload jloads r.message, r.producer, r.timestamp⟩)

/-- A concrete `json.loads` oracle for the counterexample: only the text "1"
parses. -/
def jloadsSample : String → Option Unit := fun s => if s = "1" then some () else none

/-- A messages table with one good row and one corrupt row. -/
def msgRowsSample : List MessageRow :=
  [⟨"t", "m1", "1", "p", 2⟩, ⟨"t", "m2", "x", "p", 1⟩]

/-- C8 counterexample: with one good and one corrupt stored row, the legacy
`get_messages` returns the empty list — the single corrupt row fails the
whole listing — and the current broker's placeholder record carries the error
text "Invalid JSON", not the claimed "invalid payload". -/
theorem corrupt_row_fails_legacy_listing_cex :
    get_messages_legacy jloadsSample msgRowsSample = []
    ∧ (get_messages jloadsSample msgRowsSample).map (fun m => m.message)
        = [.parsed (), .errorRec "Invalid JSON" "x"]
    ∧ ¬ (get_messages jloadsSample msgRowsSample).map (fun m => m.message)
        = [.parsed (), .errorRec "invalid payload" "x"] := by
  decide

/-- C8 amended: in the current broker a queried row whose non-empty payload
fails JSON decoding yields the placeholder record with error text
"Invalid JSON" (not "invalid payload"), and the listing always returns one
record per queried row, never failing as a whole; in the legacy broker's
`get_messages`, one corrupt row makes the whole listing come back empty. -/
theorem corrupt_payload_yields_placeholder {J : Type} (jloads : String → Option J)
    (tbl : List MessageRow) :
    (get_messages jloads tbl).length = (messagesQuery tbl).length
    ∧ (∀ r ∈ messagesQuery tbl, r.message ≠ "" → jloads r.message = none →
        (MessageOut.mk r.topic r.message_id
            (PayloadResult.errorRec "Invalid JSON" r.message) r.producer r.timestamp)
          ∈ get_messages jloads tbl)
    ∧ ((∃ r ∈ messagesQuery tbl, r.message ≠ "" ∧ jloads r.message = none) →
        get_messages_legacy jloads tbl = []) := by
  refine ⟨by simp [get_messages], ?_, ?_⟩
  · intro r hr hne hnone
    have hdec : decodePayload jloads r.message
        = PayloadResult.errorRec "Invalid JSON" r.message := by
      simp [decodePayload, hne, hnone]
    have hmem := List.mem_map_of_mem
      (fun r : MessageRow =>
        (⟨r.topic, r.message_id, decodePayload jloads r.message, r.producer,
          r.timestamp⟩ : MessageOut J)) hr
    simp only [hdec] at hmem
    exact hmem
  · rintro ⟨r, hr, hne, hnone⟩
    rw [get_messages_legacy, if_pos]
    refine List.any_eq_true.mpr ⟨r, hr, ?_⟩
    simp [hne, hnone]

/-- Witness for the amended C8 on the concrete two-row table. -/
theorem corrupt_payload_witness :
    (get_messages jloadsSample msgRowsSample).length
        = (messagesQuery msgRowsSample).length
    ∧ (MessageOut.mk "t" "m2" (PayloadResult.errorRec "Invalid JSON" "x") "p" 1)
        ∈ get_messages jloadsSample msgRowsSample
    ∧ get_messages_legacy jloadsSample msgRowsSample = [] :=
  ⟨(corrupt_payload_yields_placeholder jloadsSample msgRowsSample).1,
    (corrupt_payload_yields_placeholder jloadsSample msgRowsSample).2.1
      ⟨"t", "m2", "x", "p", 1⟩ (by decide) (by decide) (by decide),
    (corrupt_payload_yields_placeholder jloadsSample msgRowsSample).2.2
      ⟨⟨"t", "m2", "x", "p", 1⟩, by decide, by decide, by decide⟩⟩

/-! ## save_message validation (claim C9) -/

/-- One queued write task: the SQL text and its textual parameter tuple. -/
structure WriteTask where
  sql : String
  params : List String
deriving DecidableEq, Repr

/-- The insert statement used for messages. -/
def messagesInsertSql : String :=
  "INSERT INTO messages (topic, message_id, message, producer, timestamp) VALUES (?, ?, ?, ?, ?)"

/-- Legacy `Broker.save_message` (top-level `pubsub_ws.py`, production mode):
validate `topic`, `message_id`, `producer` (`if not all([...]): return` after
a warning — the message itself is not checked), else append the write task to
the shared queue and emit `new_message`.  The Bool tells whether the write
was enqueued and the event emitted; the message is modelled in its
already-serialized textual form. -/
def save_message_legacy (q : List WriteTask) (topic message_id message producer : String)
    (now : Int) : List WriteTask × Bool :=
  if topic = "" ∨ message_id = "" ∨ producer = "" then (q, false)
  else
    (q ++ [⟨messagesInsertSql, [topic, message_id, message, producer, toString now]⟩], true)

/-- Current `Broker.save_message` (`python_pubsub_server/pubsub_ws.py`): no
field validation at all — it records a load-monitor sample, enqueues the
write and emits `new_message` unconditionally.  The Nat component counts
load-monitor samples. -/
def save_message_current (q : List WriteTask) (loadSamples : Nat)
    (topic message_id message producer : String) (now : Int) :
    List WriteTask × Nat × Bool :=
  (q ++ [⟨messagesInsertSql, [topic, message_id, message, producer, toString now]⟩],
    loadSamples + 1, true)

/-- C9 counterexample: calling the current broker's `save_message` with every
required field empty still enqueues a write task, records a load sample and
emits — refuting "rejected synchronously before touching storage: no
MessageRecord is written and no write task is enqueued". -/
theorem save_message_missing_fields_still_writes_cex :
    (save_message_current [] 0 "" "" "" "" 0).1
      = [⟨messagesInsertSql, ["", "", "", "", "0"]⟩]
    ∧ (save_message_current [] 0 "" "" "" "" 0).2.2 = true := by
  decide

/-- C9 amended: the legacy broker's `save_message` validates topic,
message_id and producer and, when any is missing/empty, drops the call before
touching storage (queue unchanged, nothing emitted, logged); the current
broker's `save_message` performs no such validation (only its `/publish`
route validates), so a direct call with missing fields still enqueues a
write. -/
theorem save_message_legacy_validates (q : List WriteTask)
    (topic message_id message producer : String) (now : Int)
    (h : topic = "" ∨ message_id = "" ∨ producer = "") :
    save_message_legacy q topic message_id message producer now = (q, false) := by
  rw [save_message_legacy, if_pos h]

/-- Witness for the amended C9: a call with an empty topic is dropped. -/
theorem save_message_legacy_validates_witness :
    ("" = "" ∨ "m1" = "" ∨ "p" = "")
    ∧ save_message_legacy [] "" "m1" "hello" "p" 5 = ([], false) :=
  ⟨Or.inl rfl, save_message_legacy_validates [] "" "m1" "hello" "p" 5 (Or.inl rfl)⟩

end PubSubServer
